import Mathlib

/-!
Shallow embedding of `netlify/functions/quote-request.js`: a serverless
handler that accepts a quote-request form submission, rate-limits it per
client IP, validates it, and forwards it to the MailerSend email API,
with a best-effort confirmation email back to the customer.

Fields of the JSON payload are modelled as `Option String` (absent means
the JavaScript value `undefined`); header values, which may have
non-string shapes, are modelled by `JsVal`.  The two outbound `fetch`
calls are modelled by oracles (`FetchResult`) passed to the handler, and
the handler returns, besides its HTTP response, the updated rate-limit
store, the list of outbound email calls it made, and its log lines.
-/

namespace QuoteRequest

/-- JavaScript-like value for a header entry: absent (`undefined`), a
string, or a non-string value such as a number. -/
inductive JsVal where
  | undef : JsVal
  | str : String → JsVal
  | num : Int → JsVal
deriving DecidableEq

/-- JavaScript truthiness of a `JsVal`. -/
def JsVal.truthy : JsVal → Bool
  | .undef => false
  | .str s => decide (s ≠ "")
  | .num n => decide (n ≠ 0)

/-- JavaScript `a || b` on header values. -/
def jsOrVal (a b : JsVal) : JsVal := if a.truthy then a else b

/-- JavaScript `a || b` where `a` is a string (falsy exactly when empty). -/
def jsOr (a b : String) : String := if a = "" then b else a

/-- JavaScript `o || d` where `o` is a possibly-undefined string field. -/
def jsOrOpt (o : Option String) (d : String) : String :=
  match o with
  | some s => jsOr s d
  | none => d

/-- Truthiness of a possibly-undefined string field (the source tests
`!x` and `if (x)` on such fields). -/
def truthyOpt (o : Option String) : Bool :=
  match o with
  | some s => decide (s ≠ "")
  | none => false

/-- JavaScript `s.trim()`: remove whitespace from both ends. -/
def jsTrim (s : String) : String :=
  ⟨((s.data.dropWhile Char.isWhitespace).reverse.dropWhile
      Char.isWhitespace).reverse⟩

/-- JavaScript `s.split(",")[0]`: the characters before the first comma
(the whole string when there is none). -/
def splitFirst (s : String) : String :=
  ⟨s.data.takeWhile (fun c => decide (c ≠ ','))⟩

/-- JavaScript `s.replace(/\n/g, "<br>")` on the character list. -/
def replaceNl : List Char → List Char
  | [] => []
  | c :: cs =>
      if c = '\n' then '<' :: 'b' :: 'r' :: '>' :: replaceNl cs
      else c :: replaceNl cs

/-- One entry of the incoming `attachments` array:
`{ filename, content_type, base64 }`, each field optional. -/
structure Attachment where
  filename : Option String := none
  contentType : Option String := none
  base64 : Option String := none
deriving DecidableEq

/-- The parsed JSON body of a quote request.  A missing field is `none`
(JavaScript `undefined`). -/
structure Payload where
  fullName : Option String := none
  phone : Option String := none
  email : Option String := none
  address : Option String := none
  postcode : Option String := none
  service : Option String := none
  date : Option String := none
  message : Option String := none
  company : Option String := none
  attachments : Option (List Attachment) := none
deriving DecidableEq

/-- The two request headers the handler reads. -/
structure Headers where
  xForwardedFor : JsVal := .undef
  clientIp : JsVal := .undef
deriving DecidableEq

/-- The request body as seen by `JSON.parse(event.body || "{}")`:
either malformed JSON (the parse throws) or a well-formed object payload.
An absent body parses as the empty object. -/
inductive BodyVal where
  | malformed : BodyVal
  | wellFormed : Payload → BodyVal
deriving DecidableEq

/-- The inbound event. -/
structure Event where
  httpMethod : String
  headers : Headers := {}
  body : BodyVal := .wellFormed {}
deriving DecidableEq

/-- The three environment variables `MAILERSEND_TOKEN`, `MAILERSEND_FROM`,
`MAILERSEND_TO` (`none` when unset). -/
structure Env where
  mailersendToken : Option String := none
  mailersendFrom : Option String := none
  mailersendTo : Option String := none
deriving DecidableEq

/-- The JSON object placed in a response body.  Each constructor is one
of the object literals the source passes to `json(status, data)`. -/
inductive RespBody where
  | okSimple : RespBody
  | errorMsg : String → RespBody
  | okSkipped : RespBody
  | okId : String → RespBody
deriving DecidableEq

/-- An HTTP response (the CORS headers are the same constant on every
response and are omitted). -/
structure Response where
  statusCode : Nat
  body : RespBody
deriving DecidableEq

/-- The helper `json(status, data)`. -/
def json (status : Nat) (data : RespBody) : Response := ⟨status, data⟩

/-- The process-wide rate-limit store `globalThis.__hits`: buckets of
timestamps keyed by client identifier.  A key never seen maps to `[]`
(the source's `store.get(ip) || []`). -/
def Store : Type := String → List Int

/-- Source `store.set(ip, bucket)`. -/
def Store.set (s : Store) (k : String) (v : List Int) : Store :=
  fun k' => if k' = k then v else s k'

/-- The store of a fresh process. -/
def emptyStore : Store := fun _ => []

/-- Source `const RATE = 5`. -/
def RATE : Nat := 5

/-- Source `const WINDOW_MS = 10 * 60 * 1000`. -/
def WINDOW_MS : Int := 10 * 60 * 1000

/-- Client identifier extraction:
`(headers["x-forwarded-for"] || headers["client-ip"] || "").split(",")[0].trim() || "unknown"`.
Returns `.error ()` when the selected header value is not a string, in
which case `.split` throws a `TypeError` inside the rate-limit `try`
block. -/
def extractIp (h : Headers) : Except Unit String :=
  match jsOrVal h.xForwardedFor (jsOrVal h.clientIp (.str "")) with
  | .str s => .ok (jsOr (jsTrim (splitFirst s)) "unknown")
  | _ => .error ()

/-- The rate-limit step (source section 0): fetch the bucket for the
client identifier, drop entries older than the window, append the
current timestamp, store the bucket back, and report whether the request
is rejected (`bucket.length > RATE`).  `.error` models an exception
inside the `try` block. -/
def rateLimitStep (h : Headers) (store : Store) (now : Int) :
    Except Unit (Bool × Store) :=
  match extractIp h with
  | .error e => .error e
  | .ok ip =>
      let bucket :=
        (store ip).filter (fun t => decide (now - t < WINDOW_MS)) ++ [now]
      .ok (decide (RATE < bucket.length), Store.set store ip bucket)

/-- The test `/^\S+@\S+\.\S+$/.test email`: the string must decompose as
`a ++ "@" ++ b ++ "." ++ c` with `a`, `b`, `c` nonempty runs of
non-whitespace characters.  Since `@` and `.` are themselves
non-whitespace, this holds exactly when the string has no whitespace,
some `@` occurs at a position `i ≥ 1`, and some `.` occurs at a position
`j` with `i + 2 ≤ j` and `j + 2 ≤ length`. -/
def emailMatches (s : String) : Bool :=
  let cs := s.data
  cs.all (fun c => !c.isWhitespace) &&
  (List.range cs.length).any (fun i =>
    decide (1 ≤ i) && (cs.get? i == some '@') &&
    (List.range cs.length).any (fun j =>
      decide (i + 2 ≤ j) && decide (j + 2 ≤ cs.length) &&
      (cs.get? j == some '.')))

/-- The field values after the destructuring with defaults (source
section 2). -/
structure Fields where
  fullName : String
  phone : String
  email : String
  address : String
  service : String
  date : String
  message : String
  attachments : List Attachment
deriving DecidableEq

/-- The destructuring `const { fullName = "", ..., address =
payload.address || payload.postcode || "", ... } = payload || {}`.
A destructuring default is evaluated only when the property is
`undefined`; in that case `payload.address ||` contributes nothing (it
is `undefined`, hence falsy), so the default reduces to
`payload.postcode || ""`. -/
def destructure (p : Payload) : Fields where
  fullName := p.fullName.getD ""
  phone := p.phone.getD ""
  email := p.email.getD ""
  address :=
    match p.address with
    | some a => a
    | none => jsOrOpt p.postcode ""
  service := p.service.getD ""
  date := p.date.getD ""
  message := p.message.getD ""
  attachments := p.attachments.getD []

/-- The `missing` validation chain (source lines 78–91): the label of
the first failing check, else `none`. -/
def missing (f : Fields) : Option String :=
  if jsTrim f.fullName = "" then some "name"
  else if !emailMatches f.email then some "valid email"
  else if jsTrim f.phone = "" then some "phone"
  else if jsTrim f.address = "" then some "postcode"
  else if f.service = "" then some "service"
  else if jsTrim f.message = "" then some "message"
  else none

/-- Source `const safe = (s) => String(s || "").toString()` applied to a
string: `s || ""` is `s` unless `s` is empty, and `String` of a string
is itself. -/
def safe (s : String) : String := if s = "" then "" else s

/-- The business-email subject. -/
def subjectLine (f : Fields) : String :=
  "New Quote Request — " ++ safe f.fullName ++ " (" ++ safe f.service ++ ")"

/-- The plain-text body of the business email (a trimmed template
literal). -/
def textBody (f : Fields) : String :=
  jsTrim ("\nNew quote request\n\nFull name: " ++ safe f.fullName ++
    "\nPhone: " ++ safe f.phone ++
    "\nEmail: " ++ safe f.email ++
    "\nPostcode: " ++ safe f.address ++
    "\nService: " ++ safe f.service ++
    "\nPreferred date: " ++ safe f.date ++
    "\n\nMessage:\n" ++ safe f.message ++ "\n")

/-- The HTML body of the business email (a trimmed template literal). -/
def htmlBody (f : Fields) : String :=
  jsTrim ("\n  <h2>New quote request</h2>\n  <p><strong>Full name:</strong> " ++
    safe f.fullName ++ "</p>\n  <p><strong>Phone:</strong> " ++
    safe f.phone ++ "</p>\n  <p><strong>Email:</strong> " ++
    safe f.email ++ "</p>\n  <p><strong>Postcode:</strong> " ++
    safe f.address ++ "</p>\n  <p><strong>Service:</strong> " ++
    safe f.service ++ "</p>\n  <p><strong>Preferred date:</strong> " ++
    safe (jsOr f.date "n/a") ++ "</p>\n  <p><strong>Message:</strong><br>" ++
    (⟨replaceNl (safe f.message).data⟩ : String) ++ "</p>\n  ")

/-- One attachment in MailerSend format: `{ filename, content }`. -/
structure MsAttachment where
  filename : String
  content : String
deriving DecidableEq

/-- Source section 4: convert attachments to MailerSend format, capped
at 5: `attachments.slice(0, 5).map((a, i) => ({ filename: a.filename ||
photo-{i+1}.jpg, content: a.base64 || "" }))`, guarded by
`Array.isArray(attachments) && attachments.length`. -/
def msAttachments (attachments : List Attachment) : List MsAttachment :=
  if attachments.length ≠ 0 then
    (attachments.take 5).enum.map (fun q =>
      { filename := jsOrOpt q.2.filename ("photo-" ++ toString (q.1 + 1) ++ ".jpg")
        content := jsOrOpt q.2.base64 "" })
  else []

/-- One outbound call to the MailerSend `/v1/email` endpoint (the fields
of the JSON request body). -/
structure EmailCall where
  fromEmail : String
  fromName : Option String
  toEmail : String
  replyTo : Option String
  subject : String
  text : String
  html : String
  attachments : List MsAttachment
deriving DecidableEq

/-- The business-notification email (source section 5). -/
def businessEmail (fromEmail toEmail : String) (f : Fields) : EmailCall where
  fromEmail := fromEmail
  fromName := none
  toEmail := toEmail
  replyTo := some f.email
  subject := subjectLine f
  text := textBody f
  html := htmlBody f
  attachments := msAttachments f.attachments

/-- The plain-text body of the confirmation email. -/
def confirmText (f : Fields) : String :=
  "Hi " ++ jsOr f.fullName "" ++
  ",\n\nThanks for your request. Here’s what we got:\n- Service: " ++
  jsOr f.service "Handyman service" ++
  "\n- Postcode/Address: " ++ jsOr f.address "" ++
  "\n- Preferred date: " ++ jsOr f.date "Not specified" ++
  "\n\nWe’ll contact you shortly. If urgent, call 07305 848484.\n\n— ET Handyman Services"

/-- The HTML body of the confirmation email. -/
def confirmHtml (f : Fields) : String :=
  "<p>Hi " ++ jsOr f.fullName "there" ++
  ",</p>\n                   <p>Thanks for your request. We’ve logged the details below:</p>\n                   <ul>\n                     <li><b>Service:</b> " ++
  jsOr f.service "Handyman service" ++
  "</li>\n                     <li><b>Postcode/Address:</b> " ++
  jsOr f.address "" ++
  "</li>\n                     <li><b>Preferred date:</b> " ++
  jsOr f.date "Not specified" ++
  "</li>\n                   </ul>\n                   <p>We’ll get back to you shortly. For urgent jobs, call <a href=\"tel:+447305848484\">07305 848484</a>.</p>\n                   <p>— ET Handyman Services</p>"

/-- The fire-and-forget confirmation email (source section 6). -/
def confirmationEmail (fromEmail : String) (f : Fields) : EmailCall where
  fromEmail := fromEmail
  fromName := some "ET Handyman Services"
  toEmail := f.email
  replyTo := none
  subject := "We’ve received your quote request ✅"
  text := confirmText f
  html := confirmHtml f
  attachments := []

/-- The provider's HTTP response: `ok` is `resp.ok` (2xx), and the two
optional fields of the parsed JSON body the handler reads (`none` also
covers a body that fails to parse, since `data` then stays `{}`). -/
structure ProviderResp where
  ok : Bool
  messageId : Option String := none
  message : Option String := none
deriving DecidableEq

/-- Outcome of one `fetch` call: the fetch throws (network error) or
yields a response. -/
inductive FetchResult where
  | netError : FetchResult
  | response : ProviderResp → FetchResult
deriving DecidableEq

/-- Source sections 5–6: send the business email; on non-2xx return 500
surfacing `data.message` when present; on 2xx fire the confirmation
email (whose own failure is only logged) and return
`{ ok: true, id: data.message_id || "sent" }`; a thrown fetch returns
the generic network-error 500.  Yields (response, email calls made, log
lines). -/
def sendStep (fromEmail toEmail : String) (f : Fields)
    (businessFetch confirmFetch : FetchResult) :
    Response × List EmailCall × List String :=
  match businessFetch with
  | .netError =>
      (json 500 (.errorMsg "Network error sending email. Please try again later."),
       [businessEmail fromEmail toEmail f],
       ["console.error err"])
  | .response r =>
      if r.ok then
        (json 200 (.okId (jsOrOpt r.messageId "sent")),
         [businessEmail fromEmail toEmail f, confirmationEmail fromEmail f],
         match confirmFetch with
         | .netError => ["Confirmation email failed"]
         | .response _ => [])
      else
        (json 500 (.errorMsg (jsOrOpt r.message
            "Email send failed. Please try again or call 07305 848484.")),
         [businessEmail fromEmail toEmail f],
         ["MailerSend error"])

/-- The handler from the env-var check on (source sections 1–6): 500
when an env var is missing, 400 on malformed JSON, the honeypot 200 on a
truthy `company`, 400 naming the first missing field, else the send
step. -/
def afterRateLimit (env : Env) (body : BodyVal)
    (businessFetch confirmFetch : FetchResult) :
    Response × List EmailCall × List String :=
  if !truthyOpt env.mailersendToken || !truthyOpt env.mailersendFrom ||
      !truthyOpt env.mailersendTo then
    (json 500 (.errorMsg "Server not configured. Missing env vars."), [], [])
  else
    match body with
    | .malformed => (json 400 (.errorMsg "Bad JSON"), [], [])
    | .wellFormed p =>
        if truthyOpt p.company then
          (json 200 .okSkipped, [], [])
        else
          match missing (destructure p) with
          | some m =>
              (json 400 (.errorMsg ("Please provide a " ++ m ++ ".")), [], [])
          | none =>
              sendStep (env.mailersendFrom.getD "") (env.mailersendTo.getD "")
                (destructure p) businessFetch confirmFetch

/-- Everything one invocation produces: the HTTP response, the updated
rate-limit store, the outbound email calls made, and the log lines. -/
structure Outcome where
  response : Response
  store : Store
  emails : List EmailCall
  logs : List String

/-- The full handler.  `now` is `Date.now()`, `store` is the process
state `globalThis.__hits` on entry, and the two `FetchResult` oracles
give the outcomes of the business and confirmation `fetch` calls. -/
def handler (env : Env) (ev : Event) (now : Int) (store : Store)
    (businessFetch confirmFetch : FetchResult) : Outcome :=
  if ev.httpMethod = "OPTIONS" then ⟨json 200 .okSimple, store, [], []⟩
  else if ev.httpMethod ≠ "POST" then
    ⟨json 405 (.errorMsg "Method not allowed"), store, [], []⟩
  else
    match rateLimitStep ev.headers store now with
    | .ok (rejected, store') =>
        if rejected then
          ⟨json 429 (.errorMsg "Too many requests. Please try again later."),
           store', [], []⟩
        else
          ⟨(afterRateLimit env ev.body businessFetch confirmFetch).1, store',
           (afterRateLimit env ev.body businessFetch confirmFetch).2.1,
           (afterRateLimit env ev.body businessFetch confirmFetch).2.2⟩
    | .error _ =>
        ⟨(afterRateLimit env ev.body businessFetch confirmFetch).1, store,
         (afterRateLimit env ev.body businessFetch confirmFetch).2.1,
         "Rate limit check failed" ::
           (afterRateLimit env ev.body businessFetch confirmFetch).2.2⟩

/-- All three env vars present (truthy): the negation of the source's
`!API_TOKEN || !FROM_EMAIL || !TO_EMAIL`. -/
def envConfigured (env : Env) : Bool :=
  truthyOpt env.mailersendToken && truthyOpt env.mailersendFrom &&
  truthyOpt env.mailersendTo

/-- Run the handler once per timestamp in the list, threading the store
through (the responses are discarded). -/
def runSeq (env : Env) (ev : Event) (bf cf : FetchResult) :
    Store → List Int → Store
  | store, [] => store
  | store, t :: ts =>
      runSeq env ev bf cf (handler env ev t store bf cf).store ts

/-- Concrete headers carrying a client IP, for scenarios. -/
def hdrs1 : Headers := { xForwardedFor := .str "1.2.3.4", clientIp := .undef }

/-- Concrete fully-configured environment, for scenarios. -/
def env1 : Env :=
  { mailersendToken := some "tok"
    mailersendFrom := some "noreply@et.example"
    mailersendTo := some "eli@et.example" }

/-- A concrete payload passing every validation check. -/
def validPayload : Payload :=
  { fullName := some "Jo Bloggs"
    phone := some "07305 848484"
    email := some "jo@example.com"
    address := some "AB1 2CD"
    service := some "Handyman"
    message := some "Please quote." }

/-- A concrete POST event with `hdrs1` and `validPayload`. -/
def ev1 : Event :=
  { httpMethod := "POST", headers := hdrs1, body := .wellFormed validPayload }

/-- A provider success response supplying `message_id = "abc"`. -/
def bf1 : FetchResult := .response { ok := true, messageId := some "abc" }

/-- A successful confirmation-fetch outcome. -/
def cf1 : FetchResult := .response { ok := true }

/-! Helper lemmas about the embedding. -/

theorem Store.set_same (s : Store) (k : String) (v : List Int) :
    Store.set s k v k = v := by
  simp [Store.set]

theorem rateLimitStep_ok (h : Headers) (store : Store) (now : Int) (ip : String)
    (hip : extractIp h = .ok ip) :
    rateLimitStep h store now =
      .ok (decide (RATE <
            ((store ip).filter (fun t => decide (now - t < WINDOW_MS)) ++ [now]).length),
           Store.set store ip
            ((store ip).filter (fun t => decide (now - t < WINDOW_MS)) ++ [now])) := by
  unfold rateLimitStep
  rw [hip]

theorem handler_post (env : Env) (ev : Event) (now : Int) (store : Store)
    (bf cf : FetchResult) (ip : String)
    (hm : ev.httpMethod = "POST") (hip : extractIp ev.headers = .ok ip) :
    handler env ev now store bf cf =
      if RATE < ((store ip).filter (fun t => decide (now - t < WINDOW_MS)) ++ [now]).length then
        ⟨json 429 (.errorMsg "Too many requests. Please try again later."),
         Store.set store ip
           ((store ip).filter (fun t => decide (now - t < WINDOW_MS)) ++ [now]), [], []⟩
      else
        ⟨(afterRateLimit env ev.body bf cf).1,
         Store.set store ip
           ((store ip).filter (fun t => decide (now - t < WINDOW_MS)) ++ [now]),
         (afterRateLimit env ev.body bf cf).2.1,
         (afterRateLimit env ev.body bf cf).2.2⟩ := by
  unfold handler
  rw [hm, rateLimitStep_ok ev.headers store now ip hip]
  by_cases hc : RATE <
      ((store ip).filter (fun t => decide (now - t < WINDOW_MS)) ++ [now]).length
  · rw [if_pos hc, decide_eq_true hc]
    rfl
  · rw [if_neg hc, decide_eq_false hc]
    rfl

theorem handler_post_admitted (env : Env) (ev : Event) (now : Int)
    (store : Store) (bf cf : FetchResult) (store' : Store)
    (hm : ev.httpMethod = "POST")
    (hrl : rateLimitStep ev.headers store now = .ok (false, store')) :
    handler env ev now store bf cf =
      ⟨(afterRateLimit env ev.body bf cf).1, store',
       (afterRateLimit env ev.body bf cf).2.1,
       (afterRateLimit env ev.body bf cf).2.2⟩ := by
  unfold handler
  rw [hm, hrl]
  rfl

theorem handler_post_rejected (env : Env) (ev : Event) (now : Int)
    (store : Store) (bf cf : FetchResult) (store' : Store)
    (hm : ev.httpMethod = "POST")
    (hrl : rateLimitStep ev.headers store now = .ok (true, store')) :
    handler env ev now store bf cf =
      ⟨json 429 (.errorMsg "Too many requests. Please try again later."),
       store', [], []⟩ := by
  unfold handler
  rw [hm, hrl]
  rfl

theorem handler_post_rlerror (env : Env) (ev : Event) (now : Int)
    (store : Store) (bf cf : FetchResult)
    (hm : ev.httpMethod = "POST")
    (hrl : rateLimitStep ev.headers store now = .error ()) :
    handler env ev now store bf cf =
      ⟨(afterRateLimit env ev.body bf cf).1, store,
       (afterRateLimit env ev.body bf cf).2.1,
       "Rate limit check failed" :: (afterRateLimit env ev.body bf cf).2.2⟩ := by
  unfold handler
  rw [hm, hrl]
  rfl

theorem env_cond_eq (env : Env) :
    (!truthyOpt env.mailersendToken || !truthyOpt env.mailersendFrom ||
     !truthyOpt env.mailersendTo) = !envConfigured env := by
  unfold envConfigured
  cases truthyOpt env.mailersendToken <;> cases truthyOpt env.mailersendFrom <;>
    cases truthyOpt env.mailersendTo <;> rfl

theorem afterRateLimit_noenv (env : Env) (body : BodyVal) (bf cf : FetchResult)
    (hc : envConfigured env = false) :
    afterRateLimit env body bf cf =
      (json 500 (.errorMsg "Server not configured. Missing env vars."), [], []) := by
  unfold afterRateLimit
  rw [env_cond_eq, hc]
  rfl

theorem afterRateLimit_honeypot (env : Env) (p : Payload) (bf cf : FetchResult)
    (hconf : envConfigured env = true) (hcomp : truthyOpt p.company = true) :
    afterRateLimit env (.wellFormed p) bf cf = (json 200 .okSkipped, [], []) := by
  simp [afterRateLimit, env_cond_eq, hconf, hcomp]

theorem afterRateLimit_missing (env : Env) (p : Payload) (bf cf : FetchResult)
    (m : String)
    (hconf : envConfigured env = true) (hcomp : truthyOpt p.company = false)
    (hm : missing (destructure p) = some m) :
    afterRateLimit env (.wellFormed p) bf cf =
      (json 400 (.errorMsg ("Please provide a " ++ m ++ ".")), [], []) := by
  simp [afterRateLimit, env_cond_eq, hconf, hcomp, hm]

theorem afterRateLimit_valid (env : Env) (p : Payload) (bf cf : FetchResult)
    (hconf : envConfigured env = true) (hcomp : truthyOpt p.company = false)
    (hm : missing (destructure p) = none) :
    afterRateLimit env (.wellFormed p) bf cf =
      sendStep (env.mailersendFrom.getD "") (env.mailersendTo.getD "")
        (destructure p) bf cf := by
  simp [afterRateLimit, env_cond_eq, hconf, hcomp, hm]

theorem sendStep_head (F T : String) (f : Fields) (bf cf : FetchResult) :
    (sendStep F T f bf cf).2.1.head? = some (businessEmail F T f) := by
  cases bf with
  | netError => rfl
  | response r =>
      by_cases hok : r.ok = true
      · simp [sendStep, hok]
      · simp [sendStep, hok]

theorem msAttachments_eq (l : List Attachment) :
    msAttachments l = (l.take 5).enum.map (fun q =>
      { filename := jsOrOpt q.2.filename ("photo-" ++ toString (q.1 + 1) ++ ".jpg")
        content := jsOrOpt q.2.base64 "" }) := by
  unfold msAttachments
  by_cases h : l.length ≠ 0
  · rw [if_pos h]
  · rw [if_neg h]
    have hl : l = [] := by
      simpa using List.length_eq_zero.mp (by omega)
    rw [hl]
    rfl

theorem afterRateLimit_cf (env : Env) (body : BodyVal) (bf cf cf' : FetchResult) :
    (afterRateLimit env body bf cf).1 = (afterRateLimit env body bf cf').1
    ∧ (afterRateLimit env body bf cf).2.1 = (afterRateLimit env body bf cf').2.1 := by
  by_cases hB : envConfigured env = true
  · cases body with
    | malformed => simp [afterRateLimit, env_cond_eq, hB]
    | wellFormed p =>
        by_cases hcomp : truthyOpt p.company = true
        · simp [afterRateLimit, env_cond_eq, hB, hcomp]
        · rcases hmiss : missing (destructure p) with _ | m
          · simp only [afterRateLimit, env_cond_eq, hB, hcomp, hmiss,
              Bool.not_true, Bool.false_eq_true, if_false,
              Bool.not_eq_true] at *
            cases bf with
            | netError => simp [sendStep]
            | response r =>
                by_cases hok : r.ok = true
                · simp [sendStep, hok]
                · simp [sendStep, hok]
          · simp [afterRateLimit, env_cond_eq, hB, hcomp, hmiss]
  · have hB' : envConfigured env = false := by
      cases h : envConfigured env
      · rfl
      · exact absurd h hB
    rw [afterRateLimit_noenv env body bf cf hB',
        afterRateLimit_noenv env body bf cf' hB']
    exact ⟨rfl, rfl⟩

theorem afterRateLimit_ne_429 (env : Env) (body : BodyVal) (bf cf : FetchResult) :
    (afterRateLimit env body bf cf).1.statusCode ≠ 429 := by
  by_cases hB : envConfigured env = true
  · cases body with
    | malformed => simp [afterRateLimit, env_cond_eq, hB, json]
    | wellFormed p =>
        by_cases hcomp : truthyOpt p.company = true
        · simp [afterRateLimit, env_cond_eq, hB, hcomp, json]
        · rcases hmiss : missing (destructure p) with _ | m
          · rw [afterRateLimit_valid env p bf cf hB
              (by simp [Bool.not_eq_true] at hcomp; exact hcomp) hmiss]
            cases bf with
            | netError => simp [sendStep, json]
            | response r =>
                by_cases hok : r.ok = true
                · simp [sendStep, hok, json]
                · simp [sendStep, hok, json]
          · rw [afterRateLimit_missing env p bf cf m hB
              (by simp [Bool.not_eq_true] at hcomp; exact hcomp) hmiss]
            simp [json]
  · have hB' : envConfigured env = false := by
      cases h : envConfigured env
      · rfl
      · exact absurd h hB
    rw [afterRateLimit_noenv env body bf cf hB']
    simp [json]

/-! Claim theorems. -/

/-- The unconfigured environment: no env var set. -/
def env0 : Env := {}

/-- A POST with empty well-formed payload and no forwarded-for header. -/
def evEmptyNoHdr : Event := { httpMethod := "POST", body := .wellFormed {} }

/-- A POST with empty well-formed payload from client `hdrs1`. -/
def evEmpty : Event :=
  { httpMethod := "POST", headers := hdrs1, body := .wellFormed {} }

/-- A payload with fullName present but a non-matching email. -/
def pBadEmail : Payload :=
  { fullName := some "Jo", email := some "not-an-email" }

/-- A POST carrying `pBadEmail` from client `hdrs1`. -/
def evBadEmail : Event :=
  { httpMethod := "POST", headers := hdrs1, body := .wellFormed pBadEmail }

/-- A honeypot payload: truthy company, other fields invalid. -/
def pHoney : Payload := { company := some "bot", email := some "junk" }

/-- A POST carrying `pHoney` from client `hdrs1`. -/
def evHoney : Event :=
  { httpMethod := "POST", headers := hdrs1, body := .wellFormed pHoney }

/-- A POST carrying `validPayload` from client `hdrs1` (same as `ev1`). -/
def evValid : Event := ev1

/-- A store whose bucket for client 1.2.3.4 already holds 5 timestamps. -/
def fullStore : Store := Store.set emptyStore "1.2.3.4" [0, 0, 0, 0, 0]


/-- C1 counterexample: the claim is not true of every POST with
well-formed JSON and no truthy company field.  The empty payload has
first failing field "name", yet with the env vars missing the response
is 500, not the claimed 400; and with the client's bucket already full
the response is 429. -/
theorem C1_counterexample :
    missing (destructure {}) = some "name"
    ∧ (handler env0 evEmptyNoHdr 0 emptyStore .netError .netError).response =
      json 500 (.errorMsg "Server not configured. Missing env vars.")
    ∧ (handler env1 evEmpty 0 fullStore .netError .netError).response.statusCode = 429 := by
  refine ⟨by decide, by decide, by decide⟩

/-- C1 (amended): provided the three env vars are present and the
rate-limit step admits the request, the validator applies its checks in
the fixed order name, email pattern, phone, address/postcode, service
(truthy, untrimmed), message, and short-circuits at the first failure
(`missing` is the label of the first failing entry of the ordered check
list); the response is then 400 with error "Please provide a {field}."
naming that first failing field; in particular an email not matching
the pattern fails at the email step even when fullName is present. -/
theorem C1_validation_order :
    (∀ f : Fields, missing f =
      ([(decide (jsTrim f.fullName = ""), "name"),
        (!emailMatches f.email, "valid email"),
        (decide (jsTrim f.phone = ""), "phone"),
        (decide (jsTrim f.address = ""), "postcode"),
        (decide (f.service = ""), "service"),
        (decide (jsTrim f.message = ""), "message")].find?
          (fun c => c.1) |>.map (fun c => c.2)))
    ∧ (∀ (env : Env) (ev : Event) (now : Int) (store store' : Store)
        (bf cf : FetchResult) (p : Payload) (m : String),
        ev.httpMethod = "POST" → ev.body = .wellFormed p →
        truthyOpt p.company = false →
        envConfigured env = true →
        rateLimitStep ev.headers store now = .ok (false, store') →
        missing (destructure p) = some m →
        (handler env ev now store bf cf).response =
          json 400 (.errorMsg ("Please provide a " ++ m ++ ".")))
    ∧ (∀ f : Fields, jsTrim f.fullName ≠ "" → emailMatches f.email = false →
        missing f = some "valid email") := by
  refine ⟨?_, ?_, ?_⟩
  · intro f
    unfold missing
    split_ifs with h1 h2 h3 h4 h5 h6 <;> simp_all [List.find?]
  · intro env ev now store store' bf cf p m hm hbody hcomp hconf hrl hmiss
    rw [handler_post_admitted env ev now store bf cf store' hm hrl, hbody,
        afterRateLimit_missing env p bf cf m hconf hcomp hmiss]
  · intro f h1 h2
    unfold missing
    rw [if_neg h1, if_pos (by simp [h2])]

/-- C1 witness: a concrete payload with fullName present and a
non-matching email fails at the email step, and the configured, admitted
handler answers 400 "Please provide a valid email.". -/
theorem C1_witness :
    missing (destructure pBadEmail) = some "valid email"
    ∧ (handler env1 evBadEmail 0 emptyStore bf1 cf1).response =
      json 400 (.errorMsg "Please provide a valid email.") := by
  constructor
  · exact C1_validation_order.2.2 (destructure pBadEmail) (by decide) (by decide)
  · exact C1_validation_order.2.1 env1 evBadEmail 0 emptyStore
      (Store.set emptyStore "1.2.3.4" [0]) bf1 cf1 pBadEmail "valid email"
      rfl rfl rfl rfl rfl (by decide)

/-- C3 counterexample: the env-var check does not come before any
processing.  With all three env vars missing, a POST from a client
whose bucket already holds 5 recent timestamps is answered 429 by the
rate limiter, not 500; and even an admitted request has its timestamp
recorded in the bucket before the 500 is returned. -/
theorem C3_counterexample :
    (handler env0 evEmpty 0 fullStore .netError .netError).response =
      json 429 (.errorMsg "Too many requests. Please try again later.")
    ∧ (handler env0 evEmpty 0 emptyStore .netError .netError).store "1.2.3.4" = [0]
    ∧ (handler env0 evEmpty 0 emptyStore .netError .netError).response =
      json 500 (.errorMsg "Server not configured. Missing env vars.") := by
  refine ⟨by decide, by decide, by decide⟩

/-- C3 (amended): when any required env var is absent, a POST is
answered 500 "Server not configured. Missing env vars." with no email
call, for every body alike (malformed, honeypot, valid or invalid) —
i.e. before body parsing, honeypot handling and validation — but only
after the rate-limiting step: a rate-limited request is answered 429
even when the env vars are missing. -/
theorem C3_env_check (env : Env) (ev : Event) (now : Int)
    (store store' : Store) (bf cf : FetchResult)
    (hm : ev.httpMethod = "POST") (hc : envConfigured env = false) :
    (rateLimitStep ev.headers store now = .ok (false, store') →
      (handler env ev now store bf cf).response =
        json 500 (.errorMsg "Server not configured. Missing env vars.")
      ∧ (handler env ev now store bf cf).emails = []
      ∧ (handler env ev now store bf cf).store = store')
    ∧ (rateLimitStep ev.headers store now = .ok (true, store') →
      (handler env ev now store bf cf).response =
        json 429 (.errorMsg "Too many requests. Please try again later.")
      ∧ (handler env ev now store bf cf).store = store') := by
  constructor
  · intro hrl
    rw [handler_post_admitted env ev now store bf cf store' hm hrl,
        afterRateLimit_noenv env ev.body bf cf hc]
    exact ⟨rfl, rfl, rfl⟩
  · intro hrl
    rw [handler_post_rejected env ev now store bf cf store' hm hrl]
    exact ⟨rfl, rfl⟩

/-- C3 witness: the amended claim at concrete inputs — an unconfigured
admitted POST gets the 500, and an unconfigured rate-limited POST gets
the 429. -/
theorem C3_witness :
    (handler env0 ev1 0 emptyStore .netError .netError).response =
      json 500 (.errorMsg "Server not configured. Missing env vars.")
    ∧ (handler env0 ev1 0 fullStore .netError .netError).response =
      json 429 (.errorMsg "Too many requests. Please try again later.") := by
  constructor
  · exact ((C3_env_check env0 ev1 0 emptyStore
      (Store.set emptyStore "1.2.3.4" [0]) .netError .netError rfl rfl).1 rfl).1
  · exact ((C3_env_check env0 ev1 0 fullStore
      (Store.set fullStore "1.2.3.4" [0, 0, 0, 0, 0, 0]) .netError .netError
      rfl rfl).2 rfl).1

/-- C4 counterexample: a POST whose payload has a truthy company field
is not always answered 200 {ok, skipped}: with the env vars missing the
response is 500, and with the client's bucket already full it is
429. -/
theorem C4_counterexample :
    truthyOpt pHoney.company = true
    ∧ (handler env0 evHoney 0 emptyStore .netError .netError).response =
      json 500 (.errorMsg "Server not configured. Missing env vars.")
    ∧ (handler env1 evHoney 0 fullStore .netError .netError).response.statusCode = 429 := by
  refine ⟨by decide, by decide, by decide⟩

/-- C4 (amended): provided the env vars are present and the rate-limit
step admits the request, a POST whose well-formed payload has a truthy
company field is answered 200 {ok: true, skipped: true} and no outbound
email call is made, regardless of the remaining fields. -/
theorem C4_honeypot (env : Env) (ev : Event) (now : Int)
    (store store' : Store) (bf cf : FetchResult) (p : Payload)
    (hm : ev.httpMethod = "POST") (hbody : ev.body = .wellFormed p)
    (hcomp : truthyOpt p.company = true)
    (hconf : envConfigured env = true)
    (hrl : rateLimitStep ev.headers store now = .ok (false, store')) :
    (handler env ev now store bf cf).response = json 200 .okSkipped
    ∧ (handler env ev now store bf cf).emails = [] := by
  rw [handler_post_admitted env ev now store bf cf store' hm hrl, hbody,
      afterRateLimit_honeypot env p bf cf hconf hcomp]
  exact ⟨rfl, rfl⟩

/-- C4 witness: a concrete honeypot payload with otherwise-invalid
fields is dropped with 200 {ok, skipped} and no email call. -/
theorem C4_witness :
    (handler env1 evHoney 0 emptyStore bf1 cf1).response = json 200 .okSkipped
    ∧ (handler env1 evHoney 0 emptyStore bf1 cf1).emails = [] := by
  exact C4_honeypot env1 evHoney 0 emptyStore
    (Store.set emptyStore "1.2.3.4" [0]) bf1 cf1 pHoney rfl rfl rfl rfl rfl

/-- C5: for a configured, admitted, well-formed, non-honeypot payload
passing validation, a 2xx provider response yields 200 {ok: true, id}
where id is the provider message_id when truthy and the literal "sent"
otherwise; a non-2xx provider response yields 500 whose error is the
provider message when truthy and the generic retry message otherwise. -/
theorem C5_provider_result (env : Env) (ev : Event) (now : Int)
    (store store' : Store) (cf : FetchResult) (p : Payload) (r : ProviderResp)
    (hm : ev.httpMethod = "POST") (hbody : ev.body = .wellFormed p)
    (hcomp : truthyOpt p.company = false)
    (hconf : envConfigured env = true)
    (hrl : rateLimitStep ev.headers store now = .ok (false, store'))
    (hmiss : missing (destructure p) = none) :
    (r.ok = true →
      (handler env ev now store (.response r) cf).response =
        json 200 (.okId (jsOrOpt r.messageId "sent")))
    ∧ (r.ok = false →
      (handler env ev now store (.response r) cf).response =
        json 500 (.errorMsg (jsOrOpt r.message
          "Email send failed. Please try again or call 07305 848484."))) := by
  rw [handler_post_admitted env ev now store (.response r) cf store' hm hrl, hbody,
      afterRateLimit_valid env p (.response r) cf hconf hcomp hmiss]
  constructor
  · intro hok
    simp [sendStep, hok]
  · intro hok
    simp [sendStep, hok]

/-- C5 witness: with `validPayload`, a provider success carrying
message_id "abc" is answered 200 {ok, id: "abc"}, and a provider
failure carrying message "bad from" is answered 500 {error: "bad
from"}. -/
theorem C5_witness :
    (handler env1 ev1 0 emptyStore bf1 cf1).response = json 200 (.okId "abc")
    ∧ (handler env1 ev1 0 emptyStore
        (.response { ok := false, message := some "bad from" }) cf1).response =
      json 500 (.errorMsg "bad from") := by
  constructor
  · exact (C5_provider_result env1 ev1 0 emptyStore
      (Store.set emptyStore "1.2.3.4" [0]) cf1 validPayload
      { ok := true, messageId := some "abc" }
      rfl rfl rfl rfl rfl (by decide)).1 rfl
  · exact (C5_provider_result env1 ev1 0 emptyStore
      (Store.set emptyStore "1.2.3.4" [0]) cf1 validPayload
      { ok := false, message := some "bad from" }
      rfl rfl rfl rfl rfl (by decide)).2 rfl

theorem handler_cf (env : Env) (ev : Event) (now : Int) (store : Store)
    (bf cf cf' : FetchResult) :
    (handler env ev now store bf cf).response =
      (handler env ev now store bf cf').response
    ∧ (handler env ev now store bf cf).emails =
      (handler env ev now store bf cf').emails
    ∧ (handler env ev now store bf cf).store =
      (handler env ev now store bf cf').store := by
  by_cases h1 : ev.httpMethod = "OPTIONS"
  · refine ⟨?_, ?_, ?_⟩ <;> simp [handler, h1]
  · by_cases h2 : ev.httpMethod = "POST"
    · cases hr : rateLimitStep ev.headers store now with
      | error e =>
          cases e
          rw [handler_post_rlerror env ev now store bf cf h2 hr,
              handler_post_rlerror env ev now store bf cf' h2 hr]
          exact ⟨(afterRateLimit_cf env ev.body bf cf cf').1,
                 (afterRateLimit_cf env ev.body bf cf cf').2, rfl⟩
      | ok pr =>
          rcases pr with ⟨rejected, store2⟩
          cases rejected
          · rw [handler_post_admitted env ev now store bf cf store2 h2 hr,
                handler_post_admitted env ev now store bf cf' store2 h2 hr]
            exact ⟨(afterRateLimit_cf env ev.body bf cf cf').1,
                   (afterRateLimit_cf env ev.body bf cf cf').2, rfl⟩
          · rw [handler_post_rejected env ev now store bf cf store2 h2 hr,
                handler_post_rejected env ev now store bf cf' store2 h2 hr]
            exact ⟨rfl, rfl, rfl⟩
    · refine ⟨?_, ?_, ?_⟩ <;> simp [handler, h1, h2]

/-- C6: the confirmation email's outcome never changes the handler's
result — response, outbound calls, and store are identical for any two
confirmation-fetch outcomes (success, provider error, or thrown) — and
on the success path the handler returns 200 {ok, id} with the
confirmation call already dispatched (it appears among the outbound
calls) whatever that call's outcome. -/
theorem C6_confirmation_decoupled (env : Env) (ev : Event) (now : Int)
    (store : Store) (bf cf cf' : FetchResult) :
    ((handler env ev now store bf cf).response =
        (handler env ev now store bf cf').response
      ∧ (handler env ev now store bf cf).emails =
        (handler env ev now store bf cf').emails
      ∧ (handler env ev now store bf cf).store =
        (handler env ev now store bf cf').store)
    ∧ (∀ (store' : Store) (p : Payload) (r : ProviderResp),
        ev.httpMethod = "POST" → ev.body = .wellFormed p →
        truthyOpt p.company = false → envConfigured env = true →
        rateLimitStep ev.headers store now = .ok (false, store') →
        missing (destructure p) = none → bf = .response r → r.ok = true →
        (handler env ev now store bf cf).response =
          json 200 (.okId (jsOrOpt r.messageId "sent"))
        ∧ (handler env ev now store bf cf).emails =
          [businessEmail (env.mailersendFrom.getD "") (env.mailersendTo.getD "")
             (destructure p),
           confirmationEmail (env.mailersendFrom.getD "") (destructure p)]) := by
  refine ⟨handler_cf env ev now store bf cf cf', ?_⟩
  intro store' p r hm hbody hcomp hconf hrl hmiss hbf hok
  subst hbf
  rw [handler_post_admitted env ev now store (.response r) cf store' hm hrl, hbody,
      afterRateLimit_valid env p (.response r) cf hconf hcomp hmiss]
  constructor
  · simp [sendStep, hok]
  · simp [sendStep, hok]

/-- C6 witness: with `validPayload` and a successful business fetch, a
thrown confirmation fetch and a successful one give the same response,
namely 200 {ok, id: "abc"}, and the confirmation call was dispatched. -/
theorem C6_witness :
    (handler env1 ev1 0 emptyStore bf1 .netError).response =
      (handler env1 ev1 0 emptyStore bf1 cf1).response
    ∧ (handler env1 ev1 0 emptyStore bf1 .netError).response =
      json 200 (.okId "abc")
    ∧ (handler env1 ev1 0 emptyStore bf1 .netError).emails =
      [businessEmail "noreply@et.example" "eli@et.example" (destructure validPayload),
       confirmationEmail "noreply@et.example" (destructure validPayload)] := by
  refine ⟨(C6_confirmation_decoupled env1 ev1 0 emptyStore bf1 .netError cf1).1.1,
    ?_, ?_⟩
  · exact ((C6_confirmation_decoupled env1 ev1 0 emptyStore bf1 .netError cf1).2
      (Store.set emptyStore "1.2.3.4" [0]) validPayload
      { ok := true, messageId := some "abc" }
      rfl rfl rfl rfl rfl (by decide) rfl rfl).1
  · exact ((C6_confirmation_decoupled env1 ev1 0 emptyStore bf1 .netError cf1).2
      (Store.set emptyStore "1.2.3.4" [0]) validPayload
      { ok := true, messageId := some "abc" }
      rfl rfl rfl rfl rfl (by decide) rfl rfl).2

/-- C7: an internal failure in the rate-limiting step (here, a
non-string header value, on which `.split` throws) never blocks the
request: the handler proceeds exactly as the admitted pipeline — same
response and outbound calls — on an unchanged store, only adding the
warning log line. -/
theorem C7_rate_limit_fail_open (env : Env) (ev : Event) (now : Int)
    (store : Store) (bf cf : FetchResult)
    (hm : ev.httpMethod = "POST")
    (hip : extractIp ev.headers = .error ()) :
    (handler env ev now store bf cf).response = (afterRateLimit env ev.body bf cf).1
    ∧ (handler env ev now store bf cf).emails = (afterRateLimit env ev.body bf cf).2.1
    ∧ (handler env ev now store bf cf).store = store
    ∧ (handler env ev now store bf cf).logs =
      "Rate limit check failed" :: (afterRateLimit env ev.body bf cf).2.2 := by
  have hrl : rateLimitStep ev.headers store now = .error () := by
    unfold rateLimitStep
    rw [hip]
  rw [handler_post_rlerror env ev now store bf cf hm hrl]
  exact ⟨rfl, rfl, rfl, rfl⟩

/-- Headers whose forwarded-for value is a number, so that `.split`
throws inside the rate-limit try block. -/
def hdrsBad : Headers := { xForwardedFor := .num 7 }

/-- A POST carrying `validPayload` with the malformed header. -/
def evBadHdr : Event :=
  { httpMethod := "POST", headers := hdrsBad, body := .wellFormed validPayload }

/-- C7 witness: with the numeric header the rate-limit step fails, yet
the request is still processed to a 200 and no bucket is recorded. -/
theorem C7_witness :
    extractIp hdrsBad = .error ()
    ∧ (handler env1 evBadHdr 0 emptyStore bf1 cf1).response = json 200 (.okId "abc")
    ∧ (handler env1 evBadHdr 0 emptyStore bf1 cf1).store "1.2.3.4" = [] := by
  refine ⟨rfl, ?_, ?_⟩
  · exact ((C7_rate_limit_fail_open env1 evBadHdr 0 emptyStore bf1 cf1
      rfl rfl).1).trans (by decide)
  · exact congrFun ((C7_rate_limit_fail_open env1 evBadHdr 0 emptyStore bf1 cf1
      rfl rfl).2.2.1) "1.2.3.4"

/-- C8: for a configured, admitted, valid payload whose attachments
field is an array, the outbound business email carries exactly the
first at-most-5 attachments, each mapped to {filename, content}:
filename defaulted to photo-{index+1}.jpg when missing and content
taken from the entry's base64 field (empty string when missing); in
particular the outbound attachment list never exceeds 5 entries. -/
theorem C8_attachments_capped (env : Env) (ev : Event) (now : Int)
    (store store' : Store) (bf cf : FetchResult) (p : Payload)
    (l : List Attachment)
    (hm : ev.httpMethod = "POST") (hbody : ev.body = .wellFormed p)
    (hcomp : truthyOpt p.company = false) (hconf : envConfigured env = true)
    (hrl : rateLimitStep ev.headers store now = .ok (false, store'))
    (hmiss : missing (destructure p) = none)
    (hatt : p.attachments = some l) :
    ((handler env ev now store bf cf).emails.head?).map (fun c => c.attachments) =
      some ((l.take 5).enum.map (fun q =>
        { filename := jsOrOpt q.2.filename ("photo-" ++ toString (q.1 + 1) ++ ".jpg")
          content := jsOrOpt q.2.base64 "" }))
    ∧ ∀ c, (handler env ev now store bf cf).emails.head? = some c →
        c.attachments.length ≤ 5 := by
  have hemails : (handler env ev now store bf cf).emails =
      (sendStep (env.mailersendFrom.getD "") (env.mailersendTo.getD "")
        (destructure p) bf cf).2.1 := by
    rw [handler_post_admitted env ev now store bf cf store' hm hrl, hbody,
        afterRateLimit_valid env p bf cf hconf hcomp hmiss]
  have hattf : (destructure p).attachments = l := by
    simp [destructure, hatt]
  have hbatt : (businessEmail (env.mailersendFrom.getD "")
      (env.mailersendTo.getD "") (destructure p)).attachments =
      msAttachments l := by
    show msAttachments (destructure p).attachments = msAttachments l
    rw [hattf]
  constructor
  · rw [hemails, sendStep_head]
    simp only [Option.map_some']
    rw [hbatt, msAttachments_eq]
  · intro c hc
    rw [hemails, sendStep_head] at hc
    obtain rfl := Option.some.inj hc
    rw [hbatt, msAttachments_eq]
    simp only [List.length_map, List.enum_length, List.length_take]
    omega

/-- A payload with 7 attachments, some fields missing. -/
def pManyAtt : Payload :=
  { fullName := some "Jo Bloggs"
    phone := some "07305 848484"
    email := some "jo@example.com"
    address := some "AB1 2CD"
    service := some "Handyman"
    message := some "Please quote."
    attachments := some
      [{ filename := some "a.jpg", base64 := some "AAA" },
       { filename := none, base64 := some "BBB" },
       { filename := some "c.jpg", base64 := none },
       { filename := some "d.jpg", base64 := some "DDD" },
       { filename := some "e.jpg", base64 := some "EEE" },
       { filename := some "f.jpg", base64 := some "FFF" },
       { filename := some "g.jpg", base64 := some "GGG" }] }

/-- A POST carrying `pManyAtt` from client `hdrs1`. -/
def evManyAtt : Event :=
  { httpMethod := "POST", headers := hdrs1, body := .wellFormed pManyAtt }

set_option maxRecDepth 4096 in
/-- C8 witness: with 7 attachments, the outbound business email carries
exactly the first 5, with defaulted filename and content. -/
theorem C8_witness :
    ((handler env1 evManyAtt 0 emptyStore bf1 cf1).emails.head?).map
        (fun c => c.attachments) =
      some [{ filename := "a.jpg", content := "AAA" },
            { filename := "photo-2.jpg", content := "BBB" },
            { filename := "c.jpg", content := "" },
            { filename := "d.jpg", content := "DDD" },
            { filename := "e.jpg", content := "EEE" }]
    ∧ (businessEmail "noreply@et.example" "eli@et.example"
        (destructure pManyAtt)).attachments.length ≤ 5 := by
  constructor
  · exact ((C8_attachments_capped env1 evManyAtt 0 emptyStore
      (Store.set emptyStore "1.2.3.4" [0]) bf1 cf1 pManyAtt
      (pManyAtt.attachments.getD [])
      rfl rfl rfl rfl rfl (by decide) rfl).1).trans (by decide)
  · exact (C8_attachments_capped env1 evManyAtt 0 emptyStore
      (Store.set emptyStore "1.2.3.4" [0]) bf1 cf1 pManyAtt
      (pManyAtt.attachments.getD [])
      rfl rfl rfl rfl rfl (by decide) rfl).2
      (businessEmail "noreply@et.example" "eli@et.example" (destructure pManyAtt))
      (by decide)

/-- C9: on every POST whose client identifier is extracted, the current
timestamp is appended to the pruned bucket and stored back before the
limit check, so a 429-rejected request is recorded too: the resulting
store holds the pruned bucket plus the current timestamp, and the
response is 429 exactly when that recorded bucket exceeds the max. -/
theorem C9_rejected_recorded (env : Env) (ev : Event) (now : Int)
    (store : Store) (bf cf : FetchResult) (ip : String)
    (hm : ev.httpMethod = "POST")
    (hip : extractIp ev.headers = .ok ip) :
    (handler env ev now store bf cf).store ip =
      (store ip).filter (fun t => decide (now - t < WINDOW_MS)) ++ [now]
    ∧ ((handler env ev now store bf cf).response.statusCode = 429 ↔
        RATE < ((store ip).filter (fun t => decide (now - t < WINDOW_MS)) ++
          [now]).length) := by
  rw [handler_post env ev now store bf cf ip hm hip]
  by_cases hc : RATE <
      ((store ip).filter (fun t => decide (now - t < WINDOW_MS)) ++ [now]).length
  · rw [if_pos hc]
    exact ⟨Store.set_same store ip _, ⟨fun _ => hc, fun _ => rfl⟩⟩
  · rw [if_neg hc]
    refine ⟨Store.set_same store ip _, ?_, ?_⟩
    · intro h429
      exact absurd h429 (afterRateLimit_ne_429 env ev.body bf cf)
    · intro h
      exact absurd h hc

/-- C9 witness: the 6th hit from a full bucket is rejected with 429 and
its timestamp is still recorded in the stored bucket. -/
theorem C9_witness :
    (handler env1 evEmpty 0 fullStore .netError .netError).store "1.2.3.4" =
      [0, 0, 0, 0, 0, 0]
    ∧ (handler env1 evEmpty 0 fullStore .netError .netError).response.statusCode =
      429 := by
  constructor
  · exact (C9_rejected_recorded env1 evEmpty 0 fullStore .netError .netError
      "1.2.3.4" rfl rfl).1
  · exact (C9_rejected_recorded env1 evEmpty 0 fullStore .netError .netError
      "1.2.3.4" rfl rfl).2.mpr (by decide)

/-- C10: the postcode-to-address fallback applies only when the address
property is absent: a defined address value is used as-is, an absent one
falls back to the postcode (itself coalesced through `||`); in
particular a payload with a present-but-empty address and a non-empty
postcode fails validation at the address step, and the configured,
admitted handler answers 400 "Please provide a postcode.". -/
theorem C10_address_fallback :
    (∀ (p : Payload) (a : String), p.address = some a →
      (destructure p).address = a)
    ∧ (∀ p : Payload, p.address = none →
      (destructure p).address = jsOrOpt p.postcode "")
    ∧ (∀ p : Payload, p.address = some "" →
      jsTrim (destructure p).fullName ≠ "" →
      emailMatches (destructure p).email = true →
      jsTrim (destructure p).phone ≠ "" →
      missing (destructure p) = some "postcode")
    ∧ (∀ (env : Env) (ev : Event) (now : Int) (store store' : Store)
        (bf cf : FetchResult) (p : Payload),
        ev.httpMethod = "POST" → ev.body = .wellFormed p →
        truthyOpt p.company = false → envConfigured env = true →
        rateLimitStep ev.headers store now = .ok (false, store') →
        p.address = some "" →
        jsTrim (destructure p).fullName ≠ "" →
        emailMatches (destructure p).email = true →
        jsTrim (destructure p).phone ≠ "" →
        (handler env ev now store bf cf).response =
          json 400 (.errorMsg "Please provide a postcode.")) := by
  have part1 : ∀ (p : Payload) (a : String), p.address = some a →
      (destructure p).address = a := by
    intro p a h
    simp [destructure, h]
  have part3 : ∀ p : Payload, p.address = some "" →
      jsTrim (destructure p).fullName ≠ "" →
      emailMatches (destructure p).email = true →
      jsTrim (destructure p).phone ≠ "" →
      missing (destructure p) = some "postcode" := by
    intro p h h1 h2 h3
    have ha : (destructure p).address = "" := part1 p "" h
    unfold missing
    rw [if_neg h1, if_neg (by simp [h2]), if_neg h3, if_pos (by rw [ha]; rfl)]
  refine ⟨part1, ?_, part3, ?_⟩
  · intro p h
    simp [destructure, h]
  · intro env ev now store store' bf cf p hm hbody hcomp hconf hrl haddr h1 h2 h3
    rw [handler_post_admitted env ev now store bf cf store' hm hrl, hbody,
        afterRateLimit_missing env p bf cf "postcode" hconf hcomp
          (part3 p haddr h1 h2 h3)]
    rfl

/-- A payload whose address is present but empty while the postcode is
non-empty, other fields valid. -/
def pAddrEmpty : Payload :=
  { fullName := some "Jo Bloggs"
    phone := some "07305 848484"
    email := some "jo@example.com"
    address := some ""
    postcode := some "AB1 2CD"
    service := some "Handyman"
    message := some "Please quote." }

/-- A POST carrying `pAddrEmpty` from client `hdrs1`. -/
def evAddrEmpty : Event :=
  { httpMethod := "POST", headers := hdrs1, body := .wellFormed pAddrEmpty }

/-- C10 witness: the empty defined address is kept (no postcode
fallback), validation fails at the address step, and the handler
answers 400 "Please provide a postcode.". -/
theorem C10_witness :
    (destructure pAddrEmpty).address = ""
    ∧ missing (destructure pAddrEmpty) = some "postcode"
    ∧ (handler env1 evAddrEmpty 0 emptyStore bf1 cf1).response =
      json 400 (.errorMsg "Please provide a postcode.") := by
  refine ⟨C10_address_fallback.1 pAddrEmpty "" rfl, ?_, ?_⟩
  · exact C10_address_fallback.2.2.1 pAddrEmpty rfl (by decide) (by decide)
      (by decide)
  · exact C10_address_fallback.2.2.2 env1 evAddrEmpty 0 emptyStore
      (Store.set emptyStore "1.2.3.4" [0]) bf1 cf1 pAddrEmpty
      rfl rfl rfl rfl rfl rfl (by decide) (by decide) (by decide)

/-- C2: the rate limiter, on each call with an extracted client
identifier, takes that client's bucket, drops entries older than the
10-minute window relative to the current time, appends the current
timestamp, stores the bucket back, and rejects exactly when the
resulting length exceeds 5; consequently, for 6 requests from one
client at nondecreasing times within 10 minutes the 6th is answered
429, and once time has advanced past the window the next request from
that client is admitted again (here to a 200). -/
theorem C2_rate_limiter :
    (∀ (h : Headers) (store : Store) (now : Int) (ip : String),
      extractIp h = .ok ip →
      rateLimitStep h store now =
        .ok (decide (RATE <
              ((store ip).filter (fun t => decide (now - t < WINDOW_MS)) ++
                [now]).length),
             Store.set store ip
              ((store ip).filter (fun t => decide (now - t < WINDOW_MS)) ++ [now])))
    ∧ (∀ t1 t2 t3 t4 t5 t6 t7 : Int,
        t1 ≤ t2 → t2 ≤ t3 → t3 ≤ t4 → t4 ≤ t5 → t5 ≤ t6 →
        t6 - t1 < WINDOW_MS → t6 + WINDOW_MS ≤ t7 →
        (handler env1 ev1 t6
            (runSeq env1 ev1 bf1 cf1 emptyStore [t1, t2, t3, t4, t5])
            bf1 cf1).response =
          json 429 (.errorMsg "Too many requests. Please try again later.")
        ∧ (handler env1 ev1 t7
            (runSeq env1 ev1 bf1 cf1 emptyStore [t1, t2, t3, t4, t5, t6])
            bf1 cf1).response = json 200 (.okId "abc")) := by
  constructor
  · intro h store now ip hip
    exact rateLimitStep_ok h store now ip hip
  · intro t1 t2 t3 t4 t5 t6 t7 h12 h23 h34 h45 h56 hwin hpast
    have hW : WINDOW_MS = 600000 := rfl
    rw [hW] at hwin hpast
    have hm : ev1.httpMethod = "POST" := rfl
    have hip : extractIp ev1.headers = Except.ok "1.2.3.4" := rfl
    have hstep : ∀ (now : Int) (s : Store),
        (handler env1 ev1 now s bf1 cf1).store =
          Store.set s "1.2.3.4"
            ((s "1.2.3.4").filter (fun t => decide (now - t < WINDOW_MS)) ++
              [now]) := by
      intro now s
      rw [handler_post env1 ev1 now s bf1 cf1 "1.2.3.4" hm hip]
      split <;> rfl
    have c2a : decide (t2 - t1 < WINDOW_MS) = true :=
      decide_eq_true (by rw [hW]; omega)
    have c3a : decide (t3 - t1 < WINDOW_MS) = true :=
      decide_eq_true (by rw [hW]; omega)
    have c3b : decide (t3 - t2 < WINDOW_MS) = true :=
      decide_eq_true (by rw [hW]; omega)
    have c4a : decide (t4 - t1 < WINDOW_MS) = true :=
      decide_eq_true (by rw [hW]; omega)
    have c4b : decide (t4 - t2 < WINDOW_MS) = true :=
      decide_eq_true (by rw [hW]; omega)
    have c4c : decide (t4 - t3 < WINDOW_MS) = true :=
      decide_eq_true (by rw [hW]; omega)
    have c5a : decide (t5 - t1 < WINDOW_MS) = true :=
      decide_eq_true (by rw [hW]; omega)
    have c5b : decide (t5 - t2 < WINDOW_MS) = true :=
      decide_eq_true (by rw [hW]; omega)
    have c5c : decide (t5 - t3 < WINDOW_MS) = true :=
      decide_eq_true (by rw [hW]; omega)
    have c5d : decide (t5 - t4 < WINDOW_MS) = true :=
      decide_eq_true (by rw [hW]; omega)
    have c6a : decide (t6 - t1 < WINDOW_MS) = true :=
      decide_eq_true (by rw [hW]; omega)
    have c6b : decide (t6 - t2 < WINDOW_MS) = true :=
      decide_eq_true (by rw [hW]; omega)
    have c6c : decide (t6 - t3 < WINDOW_MS) = true :=
      decide_eq_true (by rw [hW]; omega)
    have c6d : decide (t6 - t4 < WINDOW_MS) = true :=
      decide_eq_true (by rw [hW]; omega)
    have c6e : decide (t6 - t5 < WINDOW_MS) = true :=
      decide_eq_true (by rw [hW]; omega)
    have d1 : decide (t7 - t1 < WINDOW_MS) = false :=
      decide_eq_false (by rw [hW]; omega)
    have d2 : decide (t7 - t2 < WINDOW_MS) = false :=
      decide_eq_false (by rw [hW]; omega)
    have d3 : decide (t7 - t3 < WINDOW_MS) = false :=
      decide_eq_false (by rw [hW]; omega)
    have d4 : decide (t7 - t4 < WINDOW_MS) = false :=
      decide_eq_false (by rw [hW]; omega)
    have d5 : decide (t7 - t5 < WINDOW_MS) = false :=
      decide_eq_false (by rw [hW]; omega)
    have d6 : decide (t7 - t6 < WINDOW_MS) = false :=
      decide_eq_false (by rw [hW]; omega)
    have hb1 : (handler env1 ev1 t1 emptyStore bf1 cf1).store "1.2.3.4" =
        [t1] := by
      rw [hstep, Store.set_same]
      rfl
    have hb2 : (handler env1 ev1 t2
        (handler env1 ev1 t1 emptyStore bf1 cf1).store bf1 cf1).store
        "1.2.3.4" = [t1, t2] := by
      rw [hstep, Store.set_same, hb1]
      simp [List.filter_cons, c2a]
    have hb3 : (handler env1 ev1 t3 (handler env1 ev1 t2
        (handler env1 ev1 t1 emptyStore bf1 cf1).store bf1 cf1).store
        bf1 cf1).store "1.2.3.4" = [t1, t2, t3] := by
      rw [hstep, Store.set_same, hb2]
      simp [List.filter_cons, c3a, c3b]
    have hb4 : (handler env1 ev1 t4 (handler env1 ev1 t3 (handler env1 ev1 t2
        (handler env1 ev1 t1 emptyStore bf1 cf1).store bf1 cf1).store
        bf1 cf1).store bf1 cf1).store "1.2.3.4" = [t1, t2, t3, t4] := by
      rw [hstep, Store.set_same, hb3]
      simp [List.filter_cons, c4a, c4b, c4c]
    have hb5 : (handler env1 ev1 t5 (handler env1 ev1 t4 (handler env1 ev1 t3
        (handler env1 ev1 t2 (handler env1 ev1 t1 emptyStore bf1 cf1).store
        bf1 cf1).store bf1 cf1).store bf1 cf1).store bf1 cf1).store
        "1.2.3.4" = [t1, t2, t3, t4, t5] := by
      rw [hstep, Store.set_same, hb4]
      simp [List.filter_cons, c5a, c5b, c5c, c5d]
    have hkeep6 : [t1, t2, t3, t4, t5].filter
        (fun t => decide (t6 - t < WINDOW_MS)) = [t1, t2, t3, t4, t5] := by
      simp [List.filter_cons, c6a, c6b, c6c, c6d, c6e]
    have hrun5 : runSeq env1 ev1 bf1 cf1 emptyStore [t1, t2, t3, t4, t5] =
        (handler env1 ev1 t5 (handler env1 ev1 t4 (handler env1 ev1 t3
          (handler env1 ev1 t2 (handler env1 ev1 t1 emptyStore bf1 cf1).store
          bf1 cf1).store bf1 cf1).store bf1 cf1).store bf1 cf1).store := rfl
    have hb6 : (handler env1 ev1 t6 (handler env1 ev1 t5 (handler env1 ev1 t4
        (handler env1 ev1 t3 (handler env1 ev1 t2
        (handler env1 ev1 t1 emptyStore bf1 cf1).store bf1 cf1).store
        bf1 cf1).store bf1 cf1).store bf1 cf1).store bf1 cf1).store
        "1.2.3.4" = [t1, t2, t3, t4, t5, t6] := by
      rw [hstep, Store.set_same, hb5, hkeep6]
      rfl
    have hrun6 : runSeq env1 ev1 bf1 cf1 emptyStore [t1, t2, t3, t4, t5, t6] =
        (handler env1 ev1 t6 (handler env1 ev1 t5 (handler env1 ev1 t4
          (handler env1 ev1 t3 (handler env1 ev1 t2
          (handler env1 ev1 t1 emptyStore bf1 cf1).store bf1 cf1).store
          bf1 cf1).store bf1 cf1).store bf1 cf1).store bf1 cf1).store := rfl
    have hdrop7 : [t1, t2, t3, t4, t5, t6].filter
        (fun t => decide (t7 - t < WINDOW_MS)) = [] := by
      simp [List.filter_cons, d1, d2, d3, d4, d5, d6]
    constructor
    · rw [hrun5, handler_post env1 ev1 t6 _ bf1 cf1 "1.2.3.4" hm hip, hb5,
          hkeep6, if_pos (show RATE < ([t1, t2, t3, t4, t5] ++ [t6]).length by
            norm_num [RATE])]
    · rw [hrun6, handler_post env1 ev1 t7 _ bf1 cf1 "1.2.3.4" hm hip, hb6,
          hdrop7, if_neg (show ¬ RATE < (([] : List Int) ++ [t7]).length by
            norm_num [RATE])]
      exact (by decide :
        (afterRateLimit env1 ev1.body bf1 cf1).1 = json 200 (RespBody.okId "abc"))

/-- C2 witness: six hits at times 0..5 make the 6th answer 429, and a
request at time 600005 (past the window) is admitted and answered
200. -/
theorem C2_witness :
    rateLimitStep hdrs1 emptyStore 0 =
      .ok (false, Store.set emptyStore "1.2.3.4" [0])
    ∧ (handler env1 ev1 5 (runSeq env1 ev1 bf1 cf1 emptyStore [0, 1, 2, 3, 4])
        bf1 cf1).response =
      json 429 (.errorMsg "Too many requests. Please try again later.")
    ∧ (handler env1 ev1 600005
        (runSeq env1 ev1 bf1 cf1 emptyStore [0, 1, 2, 3, 4, 5])
        bf1 cf1).response = json 200 (.okId "abc") := by
  refine ⟨C2_rate_limiter.1 hdrs1 emptyStore 0 "1.2.3.4" rfl, ?_, ?_⟩
  · exact (C2_rate_limiter.2 0 1 2 3 4 5 600005 (by decide) (by decide)
      (by decide) (by decide) (by decide) (by decide) (by decide)).1
  · exact (C2_rate_limiter.2 0 1 2 3 4 5 600005 (by decide) (by decide)
      (by decide) (by decide) (by decide) (by decide) (by decide)).2

end QuoteRequest
